import Mathlib

/-!
# libhookV2: the syscall interception layer of open-coroutine

A shallow embedding of `src/libhookV2/libhook.h` and `src/libhookV2/libhook.cpp`.

* Machine integers are `Int`; a value stored in a `uint64_t` is reduced `% 2^64`,
  an `unsigned int` `% 2^32`.
* The outside world (wall clock, coroutine scheduler, the libc originals) is a state
  of an arbitrary type `W`; every external call is a function `W → result × W`.
* Every external call a wrapper makes is recorded, in program order, in a trace of
  `Event`s, so that "how often" and "with which arguments" can be stated.
* A pointer that is only passed on (socket addresses, buffers) is an opaque `Int`.
* The `for (;;)` loop of `nanosleep` is run with a bound on the number of iterations.
-/

namespace LibHook

/-- The modulus of `uint64_t` arithmetic, `2^64`. -/
def UINT64_MOD : Int := 18446744073709551616

/-- The value `std::numeric_limits<uint64_t>::max()`, `2^64 - 1`. -/
def UINT64_MAX : Int := 18446744073709551615

/-- The modulus of `unsigned int` arithmetic, `2^32`. -/
def UINT_MOD : Int := 4294967296

/-- The C `struct timespec`: seconds and nanoseconds, both signed longs. -/
structure timespec where
  tv_sec : Int
  tv_nsec : Int
deriving DecidableEq, Repr

/-- The C `struct timeval`: seconds and microseconds, both signed longs. -/
structure timeval where
  tv_sec : Int
  tv_usec : Int
deriving DecidableEq, Repr

/-- One external call made by a wrapper, with the arguments handed over and the value
that came back. -/
inductive Event where
  | ns_now (value : Int)
  | try_timed_schedule (ms_time : Int) (status : Int)
  | try_timeout_schedule (timeout_time : Int) (status : Int)
  | sys_nanosleep (rqtp : timespec) (res : Int)
  | sys_connect (socket address address_len : Int) (res : Int)
  | sys_listen (socket backlog : Int) (res : Int)
  | sys_accept (socket address address_len : Int) (res : Int)
  | sys_send (socket buffer length flags : Int) (res : Int)
  | sys_recv (socket buffer length flags : Int) (res : Int)
deriving DecidableEq, Repr

/-- An event is a call of one of the six original (libc) implementations. -/
def Event.isReal : Event → Bool
  | .sys_nanosleep _ _ => true
  | .sys_connect _ _ _ _ => true
  | .sys_listen _ _ _ => true
  | .sys_accept _ _ _ _ => true
  | .sys_send _ _ _ _ _ => true
  | .sys_recv _ _ _ _ _ => true
  | _ => false

/-- An event is a call of the coroutine scheduler. -/
def Event.isSched : Event → Bool
  | .try_timed_schedule _ _ => true
  | .try_timeout_schedule _ _ => true
  | _ => false

/-- An event is a call of the real `nanosleep`. -/
def Event.isRealWait : Event → Bool
  | .sys_nanosleep _ _ => true
  | _ => false

/-- The functions the hook library links against: `gettimeofday` (which leaves `tp`
untouched when it fails, hence the `Option`) and the two scheduler entry points declared
in `libcoroutine.h`. Each returns its result and the world after the call. -/
structure Runtime (W : Type) where
  gettimeofday : W → Option timeval × W
  try_timed_schedule : Int → W → Int × W
  try_timeout_schedule : Int → W → Int × W

/-- Type of the real `nanosleep`: given the request, returns its `int` result and what it
stores through a non-null `rmtp` (`none`: it stores nothing). -/
abbrev NanosleepFn (W : Type) := timespec → W → (Int × Option timespec) × W

/-- Type of the real `connect` and `accept`: three arguments, an `int` result. -/
abbrev Sock3Fn (W : Type) := Int → Int → Int → W → Int × W

/-- Type of the real `listen`: two arguments, an `int` result. -/
abbrev Sock2Fn (W : Type) := Int → Int → W → Int × W

/-- Type of the real `send` and `recv`: four arguments, an `ssize_t` result. -/
abbrev Sock4Fn (W : Type) := Int → Int → Int → Int → W → Int × W

/-- What `dlsym(RTLD_NEXT, name)` yields for the six names the library looks up, seen at
the function type the source casts it to; `none` is the null pointer `dlsym` returns for
a symbol it cannot find. -/
structure NextSymbols (W : Type) where
  nanosleep : Option (NanosleepFn W)
  connect : Option (Sock3Fn W)
  listen : Option (Sock2Fn W)
  accept : Option (Sock3Fn W)
  send : Option (Sock4Fn W)
  recv : Option (Sock4Fn W)

/-- The six global function pointers of `libhook.cpp`; `none` is a null pointer. -/
structure Originals (W : Type) where
  sys_nanosleep : Option (NanosleepFn W)
  sys_connect : Option (Sock3Fn W)
  sys_listen : Option (Sock2Fn W)
  sys_accept : Option (Sock3Fn W)
  sys_send : Option (Sock4Fn W)
  sys_recv : Option (Sock4Fn W)

/-- The static initialisers of `libhook.cpp` (lines 3, 24, 34, 41, 49, 57): each global
is the cast result of `dlsym`, stored as it comes; there is no test and no failure path. -/
def static_init {W : Type} (next : NextSymbols W) : Originals W :=
  { sys_nanosleep := next.nanosleep
    sys_connect := next.connect
    sys_listen := next.listen
    sys_accept := next.accept
    sys_send := next.send
    sys_recv := next.recv }

/-- The ways a modelled call can end without returning to its caller. -/
inductive Fault where
  | null_call
  | out_of_fuel
deriving DecidableEq, Repr

/-- The outcome of one wrapper call: the value returned (or why the call did not return),
the world afterwards and the external calls made, in order. -/
structure Outcome (W : Type) where
  ret : Except Fault Int
  world : W
  trace : List Event

/-- An outcome with further events put in front of its trace. -/
def Outcome.after {W : Type} (es : List Event) (o : Outcome W) : Outcome W :=
  { o with trace := es ++ o.trace }

/-- The function `ns_now` of `libhook.h`: `tp` starts as zero, `gettimeofday` fills it,
and `tp.tv_sec * 1000000000 + tp.tv_usec * 1000` is returned as a `uint64_t`. -/
def ns_now {W : Type} (rt : Runtime W) (w : W) : Int × W :=
  let r := rt.gettimeofday w
  let tp : timeval := r.1.getD { tv_sec := 0, tv_usec := 0 }
  ((tp.tv_sec * 1000000000 + tp.tv_usec * 1000) % UINT64_MOD, r.2)

/-- What a non-null `rmtp` holds after the real `nanosleep` ran: a null `rmtp` stays
null, otherwise the pointee is overwritten by what the call stored, if anything. -/
def store_rmtp (rmtp : Option timespec) (written : Option timespec) : Option timespec :=
  match rmtp with
  | none => none
  | some old => some (written.getD old)

/-- The `for (;;)` loop of the intercepted `nanosleep` (`libhook.cpp` lines 7 to 21), run
for at most `fuel` iterations. Returns the outcome and the contents of `rmtp`. -/
def nanosleep_loop {W : Type} (rt : Runtime W) (o : Originals W) (timeout_time : Int) :
    Nat → Option timespec → W → Outcome W × Option timespec
  | 0, rmtp, w => ({ ret := .error .out_of_fuel, world := w, trace := [] }, rmtp)
  | fuel + 1, rmtp, w =>
    let s := rt.try_timeout_schedule timeout_time w
    let n := ns_now rt s.2
    let left_time := (timeout_time - n.1) % UINT64_MOD
    let head := [Event.try_timeout_schedule timeout_time s.1, Event.ns_now n.1]
    if left_time ≤ 0 then
      ({ ret := .ok 0, world := n.2, trace := head }, rmtp)
    else
      let new_rqtp : timespec :=
        { tv_sec := left_time / 1000000000, tv_nsec := left_time % 1000000000 }
      match o.sys_nanosleep with
      | none => ({ ret := .error .null_call, world := n.2, trace := head }, rmtp)
      | some f =>
        let r := f new_rqtp n.2
        let rmtp1 := store_rmtp rmtp r.1.2
        let ev := Event.sys_nanosleep new_rqtp r.1.1
        if r.1.1 = 0 then
          ({ ret := .ok 0, world := r.2, trace := head ++ [ev] }, rmtp1)
        else
          let rest := nanosleep_loop rt o timeout_time fuel rmtp1 r.2
          (rest.1.after (head ++ [ev]), rest.2)

/-- The `timeout_time` computed on line 6 of `libhook.cpp` from the clock value read on
entry: `ns_now() + rqtp->tv_sec * 1000000000 + rqtp->tv_nsec`, as a `uint64_t`. -/
def deadline (start : Int) (rqtp : timespec) : Int :=
  (start + rqtp.tv_sec * 1000000000 + rqtp.tv_nsec) % UINT64_MOD

/-- The intercepted `nanosleep` (`libhook.cpp` lines 5 to 22); `rmtp` is `none` for a
null pointer, otherwise the contents of the pointee. -/
def nanosleep {W : Type} (rt : Runtime W) (o : Originals W) (fuel : Nat)
    (rqtp : timespec) (rmtp : Option timespec) (w : W) : Outcome W × Option timespec :=
  let n := ns_now rt w
  let timeout_time := deadline n.1 rqtp
  let rest := nanosleep_loop rt o timeout_time fuel rmtp n.2
  (rest.1.after [Event.ns_now n.1], rest.2)

/-- The intercepted `connect` (`libhook.cpp` lines 28 to 32). -/
def connect {W : Type} (rt : Runtime W) (o : Originals W)
    (socket address address_len : Int) (w : W) : Outcome W :=
  let s := rt.try_timed_schedule UINT64_MAX w
  match o.sys_connect with
  | none =>
    { ret := .error .null_call, world := s.2,
      trace := [Event.try_timed_schedule UINT64_MAX s.1] }
  | some f =>
    let r := f socket address address_len s.2
    { ret := .ok r.1, world := r.2,
      trace := [Event.try_timed_schedule UINT64_MAX s.1,
                Event.sys_connect socket address address_len r.1] }

/-- The intercepted `listen` (`libhook.cpp` lines 36 to 39). -/
def listen {W : Type} (rt : Runtime W) (o : Originals W)
    (socket backlog : Int) (w : W) : Outcome W :=
  let s := rt.try_timed_schedule UINT64_MAX w
  match o.sys_listen with
  | none =>
    { ret := .error .null_call, world := s.2,
      trace := [Event.try_timed_schedule UINT64_MAX s.1] }
  | some f =>
    let r := f socket backlog s.2
    { ret := .ok r.1, world := r.2,
      trace := [Event.try_timed_schedule UINT64_MAX s.1,
                Event.sys_listen socket backlog r.1] }

/-- The intercepted `accept` (`libhook.cpp` lines 43 to 47). -/
def accept {W : Type} (rt : Runtime W) (o : Originals W)
    (socket address address_len : Int) (w : W) : Outcome W :=
  let s := rt.try_timed_schedule UINT64_MAX w
  match o.sys_accept with
  | none =>
    { ret := .error .null_call, world := s.2,
      trace := [Event.try_timed_schedule UINT64_MAX s.1] }
  | some f =>
    let r := f socket address address_len s.2
    { ret := .ok r.1, world := r.2,
      trace := [Event.try_timed_schedule UINT64_MAX s.1,
                Event.sys_accept socket address address_len r.1] }

/-- The intercepted `send` (`libhook.cpp` lines 51 to 55). -/
def send {W : Type} (rt : Runtime W) (o : Originals W)
    (socket buffer length flags : Int) (w : W) : Outcome W :=
  let s := rt.try_timed_schedule UINT64_MAX w
  match o.sys_send with
  | none =>
    { ret := .error .null_call, world := s.2,
      trace := [Event.try_timed_schedule UINT64_MAX s.1] }
  | some f =>
    let r := f socket buffer length flags s.2
    { ret := .ok r.1, world := r.2,
      trace := [Event.try_timed_schedule UINT64_MAX s.1,
                Event.sys_send socket buffer length flags r.1] }

/-- The intercepted `recv` (`libhook.cpp` lines 59 to 63). -/
def recv {W : Type} (rt : Runtime W) (o : Originals W)
    (socket buffer length flags : Int) (w : W) : Outcome W :=
  let s := rt.try_timed_schedule UINT64_MAX w
  match o.sys_recv with
  | none =>
    { ret := .error .null_call, world := s.2,
      trace := [Event.try_timed_schedule UINT64_MAX s.1] }
  | some f =>
    let r := f socket buffer length flags s.2
    { ret := .ok r.1, world := r.2,
      trace := [Event.try_timed_schedule UINT64_MAX s.1,
                Event.sys_recv socket buffer length flags r.1] }

/-- The request `sleep` builds (`libhook.h` lines 22 to 24). -/
def sleep_rqtp (secs : Int) : timespec :=
  { tv_sec := secs, tv_nsec := 0 }

/-- The request `usleep` builds (`libhook.h` lines 35 to 37); `microseconds` is an
`unsigned int`, and so is the product before it is stored in the `long` field. -/
def usleep_rqtp (microseconds : Int) : timespec :=
  { tv_sec := microseconds / 1000000
    tv_nsec := ((microseconds % 1000000) * 1000) % UINT_MOD }

/-- The conversion of a `long` to the `int` a function returns: reduction into
`[-2^31, 2^31)`. -/
def to_int (x : Int) : Int :=
  (x + 2147483648) % UINT_MOD - 2147483648

/-- The value `sleep` returns from the remainder: `rmtp.tv_sec` as an `unsigned int`. -/
def sleep_result (rmtp : timespec) : Int :=
  rmtp.tv_sec % UINT_MOD

/-- The value `usleep` returns from the remainder:
`rmtp.tv_sec * 1000000 + rmtp.tv_nsec / 1000` (signed division, rounding towards zero)
as an `int`. -/
def usleep_result (rmtp : timespec) : Int :=
  to_int (rmtp.tv_sec * 1000000 + Int.tdiv rmtp.tv_nsec 1000)

/-- The tail shared by `sleep` and `usleep`: the value of the intercepted `nanosleep` is
dropped and the result is computed from the remainder structure. -/
def from_rmtp {W : Type} (result : timespec → Int) (zero : timespec)
    (r : Outcome W × Option timespec) : Outcome W :=
  match r.1.ret with
  | .ok _ => { r.1 with ret := .ok (result (r.2.getD zero)) }
  | .error e => { r.1 with ret := .error e }

/-- The function `sleep` of `libhook.h` (lines 21 to 32). -/
def sleep {W : Type} (rt : Runtime W) (o : Originals W) (fuel : Nat) (secs : Int) (w : W) :
    Outcome W :=
  let rmtp : timespec := { tv_sec := 0, tv_nsec := 0 }
  from_rmtp sleep_result rmtp (nanosleep rt o fuel (sleep_rqtp secs) (some rmtp) w)

/-- The function `usleep` of `libhook.h` (lines 34 to 45). -/
def usleep {W : Type} (rt : Runtime W) (o : Originals W) (fuel : Nat) (microseconds : Int)
    (w : W) : Outcome W :=
  let rmtp : timespec := { tv_sec := 0, tv_nsec := 0 }
  from_rmtp usleep_result rmtp (nanosleep rt o fuel (usleep_rqtp microseconds) (some rmtp) w)

/-- The wall clock at a world, in nanoseconds and without the reduction to 64 bits: what
`gettimeofday` would report there. -/
def clock {W : Type} (rt : Runtime W) (w : W) : Int :=
  let tp : timeval := (rt.gettimeofday w).1.getD { tv_sec := 0, tv_usec := 0 }
  tp.tv_sec * 1000000000 + tp.tv_usec * 1000

/-- The duration a `timespec` asks for, in nanoseconds. -/
def timespec.ns (t : timespec) : Int :=
  t.tv_sec * 1000000000 + t.tv_nsec

/-- The clock never runs backwards across the calls the intercepted `nanosleep` makes. -/
def ClockMonotone {W : Type} (rt : Runtime W) (o : Originals W) : Prop :=
  (∀ w, clock rt w ≤ clock rt (rt.gettimeofday w).2) ∧
  (∀ t w, clock rt w ≤ clock rt (rt.try_timeout_schedule t w).2) ∧
  (∀ f, o.sys_nanosleep = some f → ∀ rq w, clock rt w ≤ clock rt (f rq w).2)

/-- A real wait that returns 0 has let at least the duration it was asked for pass. -/
def WaitHonoured {W : Type} (rt : Runtime W) (o : Originals W) : Prop :=
  ∀ f, o.sys_nanosleep = some f →
    ∀ rq w, (f rq w).1.1 = 0 → clock rt w + rq.ns ≤ clock rt (f rq w).2

/-- The real `nanosleep` stores a remainder only when it returns non-zero. -/
def WritesOnlyOnFailure {W : Type} (o : Originals W) : Prop :=
  ∀ f, o.sys_nanosleep = some f → ∀ rq w, (f rq w).1.1 = 0 → (f rq w).1.2 = none

/-! ## A small concrete world, used to run the wrappers -/

/-- A world with a microsecond wall clock, an amount of ready coroutine work (in
microseconds) that the next scheduler call runs to completion, and a number of
upcoming real waits that a signal interrupts. -/
structure DemoWorld where
  usec : Nat
  busy : Nat
  interrupts : Nat
deriving DecidableEq, Repr

/-- The scheduler of the small world: runs all ready work, which takes `busy`
microseconds whatever the budget (no preemption), and reports status 0. -/
def demo_schedule (_budget : Int) (w : DemoWorld) : Int × DemoWorld :=
  (0, { w with usec := w.usec + w.busy, busy := 0 })

/-- The runtime of the small world. -/
def demo_runtime : Runtime DemoWorld :=
  { gettimeofday := fun w =>
      (some { tv_sec := (w.usec / 1000000 : Nat), tv_usec := (w.usec % 1000000 : Nat) }, w)
    try_timed_schedule := demo_schedule
    try_timeout_schedule := demo_schedule }

/-- The real `nanosleep` of the small world: an invalid request fails with -1 at once; an
interrupted wait fails with -1, lets no time pass and stores the whole request as the
remainder; otherwise the wait lasts the requested time, rounded up to a microsecond. -/
def demo_nanosleep : NanosleepFn DemoWorld := fun rq w =>
  if rq.tv_sec < 0 ∨ rq.tv_nsec < 0 ∨ 1000000000 ≤ rq.tv_nsec then ((-1, none), w)
  else if w.interrupts = 0 then
    ((0, none), { w with usec := w.usec + ((rq.ns + 999) / 1000).toNat })
  else ((-1, some rq), { w with interrupts := w.interrupts - 1 })

/-- The six originals as found in the small world: `connect` is refused (-1), `listen`
succeeds, `accept` yields a new descriptor, `send` takes the whole buffer and `recv`
reports end of stream. -/
def demo_next : NextSymbols DemoWorld :=
  { nanosleep := some demo_nanosleep
    connect := some (fun _ _ _ w => (-1, w))
    listen := some (fun _ _ w => (0, w))
    accept := some (fun socket _ _ w => (socket + 1, w))
    send := some (fun _ _ length _ w => (length, w))
    recv := some (fun _ _ _ _ w => (0, w)) }

/-- A link order in which no further `connect` follows the library. -/
def demo_next_without_connect : NextSymbols DemoWorld :=
  { demo_next with connect := none }

/-- The initial world of `main.cpp` with nothing to schedule. -/
def demo_idle : DemoWorld := { usec := 5, busy := 0, interrupts := 0 }

/-! ## The socket wrappers -/

/-- C1. Each of the intercepted `connect`, `listen`, `accept`, `send` and `recv`, for every
argument tuple, every scheduler and every original `f`: the wrapper returns exactly the
value `f` returns on the wrapper's own arguments (in the world the scheduler left), leaves
the world as `f` left it, and the calls of original implementations it made are exactly
that one call. -/
theorem wrappers_delegate_once {W : Type} (rt : Runtime W) (o : Originals W) (w : W) :
    (∀ f socket address address_len, o.sys_connect = some f →
      (connect rt o socket address address_len w).ret
          = .ok (f socket address address_len (rt.try_timed_schedule UINT64_MAX w).2).1 ∧
      (connect rt o socket address address_len w).world
          = (f socket address address_len (rt.try_timed_schedule UINT64_MAX w).2).2 ∧
      (connect rt o socket address address_len w).trace.filter Event.isReal
          = [Event.sys_connect socket address address_len
              (f socket address address_len (rt.try_timed_schedule UINT64_MAX w).2).1]) ∧
    (∀ f socket backlog, o.sys_listen = some f →
      (listen rt o socket backlog w).ret
          = .ok (f socket backlog (rt.try_timed_schedule UINT64_MAX w).2).1 ∧
      (listen rt o socket backlog w).world
          = (f socket backlog (rt.try_timed_schedule UINT64_MAX w).2).2 ∧
      (listen rt o socket backlog w).trace.filter Event.isReal
          = [Event.sys_listen socket backlog
              (f socket backlog (rt.try_timed_schedule UINT64_MAX w).2).1]) ∧
    (∀ f socket address address_len, o.sys_accept = some f →
      (accept rt o socket address address_len w).ret
          = .ok (f socket address address_len (rt.try_timed_schedule UINT64_MAX w).2).1 ∧
      (accept rt o socket address address_len w).world
          = (f socket address address_len (rt.try_timed_schedule UINT64_MAX w).2).2 ∧
      (accept rt o socket address address_len w).trace.filter Event.isReal
          = [Event.sys_accept socket address address_len
              (f socket address address_len (rt.try_timed_schedule UINT64_MAX w).2).1]) ∧
    (∀ f socket buffer length flags, o.sys_send = some f →
      (send rt o socket buffer length flags w).ret
          = .ok (f socket buffer length flags (rt.try_timed_schedule UINT64_MAX w).2).1 ∧
      (send rt o socket buffer length flags w).world
          = (f socket buffer length flags (rt.try_timed_schedule UINT64_MAX w).2).2 ∧
      (send rt o socket buffer length flags w).trace.filter Event.isReal
          = [Event.sys_send socket buffer length flags
              (f socket buffer length flags (rt.try_timed_schedule UINT64_MAX w).2).1]) ∧
    (∀ f socket buffer length flags, o.sys_recv = some f →
      (recv rt o socket buffer length flags w).ret
          = .ok (f socket buffer length flags (rt.try_timed_schedule UINT64_MAX w).2).1 ∧
      (recv rt o socket buffer length flags w).world
          = (f socket buffer length flags (rt.try_timed_schedule UINT64_MAX w).2).2 ∧
      (recv rt o socket buffer length flags w).trace.filter Event.isReal
          = [Event.sys_recv socket buffer length flags
              (f socket buffer length flags (rt.try_timed_schedule UINT64_MAX w).2).1]) := by
  refine ⟨?_, ?_, ?_, ?_, ?_⟩
  · intro f socket address address_len h
    simp [connect, h, Event.isReal]
  · intro f socket backlog h
    simp [listen, h, Event.isReal]
  · intro f socket address address_len h
    simp [accept, h, Event.isReal]
  · intro f socket buffer length flags h
    simp [send, h, Event.isReal]
  · intro f socket buffer length flags h
    simp [recv, h, Event.isReal]

/-- In the small world, with seven microseconds of coroutine work drained first, the
refused `connect` hands its -1 through and `send` reports the length it was given. -/
theorem wrappers_delegate_once_witness :
    (connect demo_runtime (static_init demo_next) 3 4 16
        { usec := 0, busy := 7, interrupts := 0 }).ret = .ok (-1) ∧
    (connect demo_runtime (static_init demo_next) 3 4 16
        { usec := 0, busy := 7, interrupts := 0 }).trace.filter Event.isReal
      = [Event.sys_connect 3 4 16 (-1)] ∧
    (send demo_runtime (static_init demo_next) 3 4 100 0
        { usec := 0, busy := 7, interrupts := 0 }).ret = .ok 100 :=
  have h := wrappers_delegate_once demo_runtime (static_init demo_next)
    { usec := 0, busy := 7, interrupts := 0 }
  ⟨(h.1 _ 3 4 16 rfl).1, (h.1 _ 3 4 16 rfl).2.2, (h.2.2.2.1 _ 3 4 100 0 rfl).1⟩

/-- C6. Each of the intercepted `connect`, `listen`, `accept`, `send` and `recv` makes
exactly two external calls when its original is bound: first one call of
`try_timed_schedule` with budget `2^64 - 1`, then the original, which runs in the world
the scheduler call left behind. The status the scheduler returns does not matter: against
any runtime whose scheduler changes the world in the same way (whatever status it
reports), the wrapper returns the same value, leaves the same world and makes the same
call of the original. -/
theorem wrappers_schedule_once_first {W : Type} (rt : Runtime W) (o : Originals W) (w : W) :
    (∀ socket address address_len,
      (∀ f, o.sys_connect = some f →
        (connect rt o socket address address_len w).trace
          = [Event.try_timed_schedule 18446744073709551615
               (rt.try_timed_schedule 18446744073709551615 w).1,
             Event.sys_connect socket address address_len
               (f socket address address_len
                 (rt.try_timed_schedule 18446744073709551615 w).2).1]) ∧
      (∀ rt2 : Runtime W,
        (∀ t v, (rt2.try_timed_schedule t v).2 = (rt.try_timed_schedule t v).2) →
        (connect rt2 o socket address address_len w).ret
            = (connect rt o socket address address_len w).ret ∧
        (connect rt2 o socket address address_len w).world
            = (connect rt o socket address address_len w).world ∧
        (connect rt2 o socket address address_len w).trace.filter Event.isReal
            = (connect rt o socket address address_len w).trace.filter Event.isReal)) ∧
    (∀ socket backlog,
      (∀ f, o.sys_listen = some f →
        (listen rt o socket backlog w).trace
          = [Event.try_timed_schedule 18446744073709551615
               (rt.try_timed_schedule 18446744073709551615 w).1,
             Event.sys_listen socket backlog
               (f socket backlog (rt.try_timed_schedule 18446744073709551615 w).2).1]) ∧
      (∀ rt2 : Runtime W,
        (∀ t v, (rt2.try_timed_schedule t v).2 = (rt.try_timed_schedule t v).2) →
        (listen rt2 o socket backlog w).ret = (listen rt o socket backlog w).ret ∧
        (listen rt2 o socket backlog w).world = (listen rt o socket backlog w).world ∧
        (listen rt2 o socket backlog w).trace.filter Event.isReal
            = (listen rt o socket backlog w).trace.filter Event.isReal)) ∧
    (∀ socket address address_len,
      (∀ f, o.sys_accept = some f →
        (accept rt o socket address address_len w).trace
          = [Event.try_timed_schedule 18446744073709551615
               (rt.try_timed_schedule 18446744073709551615 w).1,
             Event.sys_accept socket address address_len
               (f socket address address_len
                 (rt.try_timed_schedule 18446744073709551615 w).2).1]) ∧
      (∀ rt2 : Runtime W,
        (∀ t v, (rt2.try_timed_schedule t v).2 = (rt.try_timed_schedule t v).2) →
        (accept rt2 o socket address address_len w).ret
            = (accept rt o socket address address_len w).ret ∧
        (accept rt2 o socket address address_len w).world
            = (accept rt o socket address address_len w).world ∧
        (accept rt2 o socket address address_len w).trace.filter Event.isReal
            = (accept rt o socket address address_len w).trace.filter Event.isReal)) ∧
    (∀ socket buffer length flags,
      (∀ f, o.sys_send = some f →
        (send rt o socket buffer length flags w).trace
          = [Event.try_timed_schedule 18446744073709551615
               (rt.try_timed_schedule 18446744073709551615 w).1,
             Event.sys_send socket buffer length flags
               (f socket buffer length flags
                 (rt.try_timed_schedule 18446744073709551615 w).2).1]) ∧
      (∀ rt2 : Runtime W,
        (∀ t v, (rt2.try_timed_schedule t v).2 = (rt.try_timed_schedule t v).2) →
        (send rt2 o socket buffer length flags w).ret
            = (send rt o socket buffer length flags w).ret ∧
        (send rt2 o socket buffer length flags w).world
            = (send rt o socket buffer length flags w).world ∧
        (send rt2 o socket buffer length flags w).trace.filter Event.isReal
            = (send rt o socket buffer length flags w).trace.filter Event.isReal)) ∧
    (∀ socket buffer length flags,
      (∀ f, o.sys_recv = some f →
        (recv rt o socket buffer length flags w).trace
          = [Event.try_timed_schedule 18446744073709551615
               (rt.try_timed_schedule 18446744073709551615 w).1,
             Event.sys_recv socket buffer length flags
               (f socket buffer length flags
                 (rt.try_timed_schedule 18446744073709551615 w).2).1]) ∧
      (∀ rt2 : Runtime W,
        (∀ t v, (rt2.try_timed_schedule t v).2 = (rt.try_timed_schedule t v).2) →
        (recv rt2 o socket buffer length flags w).ret
            = (recv rt o socket buffer length flags w).ret ∧
        (recv rt2 o socket buffer length flags w).world
            = (recv rt o socket buffer length flags w).world ∧
        (recv rt2 o socket buffer length flags w).trace.filter Event.isReal
            = (recv rt o socket buffer length flags w).trace.filter Event.isReal)) := by
  refine ⟨?_, ?_, ?_, ?_, ?_⟩
  · intro socket address address_len
    refine ⟨fun f h => by simp [connect, h, UINT64_MAX], fun rt2 h2 => ?_⟩
    cases h : o.sys_connect <;> simp [connect, h, h2, Event.isReal]
  · intro socket backlog
    refine ⟨fun f h => by simp [listen, h, UINT64_MAX], fun rt2 h2 => ?_⟩
    cases h : o.sys_listen <;> simp [listen, h, h2, Event.isReal]
  · intro socket address address_len
    refine ⟨fun f h => by simp [accept, h, UINT64_MAX], fun rt2 h2 => ?_⟩
    cases h : o.sys_accept <;> simp [accept, h, h2, Event.isReal]
  · intro socket buffer length flags
    refine ⟨fun f h => by simp [send, h, UINT64_MAX], fun rt2 h2 => ?_⟩
    cases h : o.sys_send <;> simp [send, h, h2, Event.isReal]
  · intro socket buffer length flags
    refine ⟨fun f h => by simp [recv, h, UINT64_MAX], fun rt2 h2 => ?_⟩
    cases h : o.sys_recv <;> simp [recv, h, h2, Event.isReal]

/-- In the small world `listen` first runs the scheduler with budget `2^64 - 1` and then
the original `listen`. -/
theorem wrappers_schedule_once_first_witness :
    (listen demo_runtime (static_init demo_next) 3 128
        { usec := 0, busy := 7, interrupts := 0 }).trace
      = [Event.try_timed_schedule 18446744073709551615 0, Event.sys_listen 3 128 0] :=
  ((wrappers_schedule_once_first demo_runtime (static_init demo_next)
    { usec := 0, busy := 7, interrupts := 0 }).2.1 3 128).1 _ rfl

/-! ## `sleep` and `usleep` -/

/-- C9. For every `unsigned int` number of microseconds `m`, `usleep` calls the
intercepted `nanosleep` with the request `usleep_rqtp m`, which asks for exactly
`m * 1000` nanoseconds, has its nanosecond field in `[0, 10^9)`, and whose intermediate
product `(m % 1000000) * 1000` stays below `2^32`; and `sleep s` calls it with
`tv_sec = s` and `tv_nsec = 0`. -/
theorem usleep_sleep_requests {W : Type} (rt : Runtime W) (o : Originals W) (fuel : Nat)
    (w : W) (m s : Int) (hm0 : 0 ≤ m) (hm1 : m < 4294967296) :
    (usleep_rqtp m).tv_sec * 1000000000 + (usleep_rqtp m).tv_nsec = m * 1000 ∧
    0 ≤ (usleep_rqtp m).tv_nsec ∧ (usleep_rqtp m).tv_nsec < 1000000000 ∧
    (m % 1000000) * 1000 < 4294967296 ∧
    0 ≤ (usleep_rqtp m).tv_sec ∧ (usleep_rqtp m).tv_sec < 4295 ∧
    usleep rt o fuel m w
      = from_rmtp usleep_result { tv_sec := 0, tv_nsec := 0 }
          (nanosleep rt o fuel (usleep_rqtp m) (some { tv_sec := 0, tv_nsec := 0 }) w) ∧
    (sleep_rqtp s).tv_sec = s ∧ (sleep_rqtp s).tv_nsec = 0 ∧
    sleep rt o fuel s w
      = from_rmtp sleep_result { tv_sec := 0, tv_nsec := 0 }
          (nanosleep rt o fuel (sleep_rqtp s) (some { tv_sec := 0, tv_nsec := 0 }) w) := by
  have hlt : (m % 1000000) * 1000 < 4294967296 := by omega
  have hmod : ((m % 1000000) * 1000) % 4294967296 = (m % 1000000) * 1000 :=
    Int.emod_eq_of_lt (by omega) hlt
  refine ⟨?_, ?_, ?_, hlt, ?_, ?_, rfl, rfl, rfl, rfl⟩ <;>
    simp only [usleep_rqtp, UINT_MOD, hmod] <;> omega

/-- The largest `unsigned int`, 4294967295 microseconds, becomes 4294 seconds and
967295000 nanoseconds. -/
theorem usleep_sleep_requests_witness :
    usleep_rqtp 4294967295 = { tv_sec := 4294, tv_nsec := 967295000 } ∧
    (usleep_rqtp 4294967295).tv_sec * 1000000000 + (usleep_rqtp 4294967295).tv_nsec
      = 4294967295 * 1000 :=
  ⟨by decide,
   (usleep_sleep_requests demo_runtime (static_init demo_next) 1 demo_idle 4294967295 1
      (by decide) (by decide)).1⟩

/-! ## The intercepted `nanosleep`: facts about the loop -/

theorem ns_now_fst {W : Type} (rt : Runtime W) (w : W) :
    (ns_now rt w).1 = clock rt w % UINT64_MOD := rfl

theorem ns_now_snd {W : Type} (rt : Runtime W) (w : W) :
    (ns_now rt w).2 = (rt.gettimeofday w).2 := rfl

theorem after_ret {W : Type} (es : List Event) (x : Outcome W) : (x.after es).ret = x.ret := rfl

theorem after_world {W : Type} (es : List Event) (x : Outcome W) :
    (x.after es).world = x.world := rfl

theorem after_trace {W : Type} (es : List Event) (x : Outcome W) :
    (x.after es).trace = es ++ x.trace := rfl

theorem from_rmtp_trace {W : Type} (g : timespec → Int) (z : timespec)
    (r : Outcome W × Option timespec) : (from_rmtp g z r).trace = r.1.trace := by
  unfold from_rmtp
  split <;> rfl

/-- The loop hands back no value other than 0. -/
theorem loop_ret_zero {W : Type} (rt : Runtime W) (o : Originals W) (T : Int) :
    ∀ (fuel : Nat) (rmtp : Option timespec) (w : W) (r : Int),
      (nanosleep_loop rt o T fuel rmtp w).1.ret = .ok r → r = 0 := by
  intro fuel
  induction fuel with
  | zero => intro rmtp w r h; simp [nanosleep_loop] at h
  | succ k ih =>
    intro rmtp w r h
    simp only [nanosleep_loop] at h
    split at h
    · simp at h; omega
    · split at h
      · simp at h
      · split at h
        · simp at h; omega
        · exact ih _ _ _ h

/-- A loop run that returns has made at least one external call. -/
theorem loop_trace_ne_nil {W : Type} (rt : Runtime W) (o : Originals W) (T : Int)
    (fuel : Nat) (rmtp : Option timespec) (w : W) (r : Int)
    (h : (nanosleep_loop rt o T fuel rmtp w).1.ret = .ok r) :
    (nanosleep_loop rt o T fuel rmtp w).1.trace ≠ [] := by
  cases fuel with
  | zero => simp [nanosleep_loop] at h
  | succ k =>
    simp only [nanosleep_loop]
    split
    · simp
    · split
      · simp
      · split
        · simp
        · simp [after_trace]

theorem store_rmtp_none (rmtp : Option timespec) : store_rmtp rmtp none = rmtp := by
  cases rmtp <;> rfl

/-- With the real `nanosleep` bound and storing a remainder only on failure: a loop run of
at least one iteration all of whose real waits returned 0 has returned 0 and has left
`rmtp` as it was. -/
theorem loop_undisturbed {W : Type} (rt : Runtime W) (o : Originals W) (T : Int)
    (f : NanosleepFn W) (hf : o.sys_nanosleep = some f) (hw : WritesOnlyOnFailure o)
    (fuel : Nat) (rmtp : Option timespec) (w : W)
    (h : ∀ rq res, Event.sys_nanosleep rq res
          ∈ (nanosleep_loop rt o T (fuel + 1) rmtp w).1.trace → res = 0) :
    (nanosleep_loop rt o T (fuel + 1) rmtp w).1.ret = .ok 0 ∧
    (nanosleep_loop rt o T (fuel + 1) rmtp w).2 = rmtp := by
  simp only [nanosleep_loop, hf] at h ⊢
  split
  · simp
  · rename_i hleft
    simp only [hleft, if_false] at h
    split
    · rename_i hres
      refine ⟨rfl, ?_⟩
      simp only [hw f hf _ _ hres, store_rmtp_none]
    · rename_i hres
      simp only [hres, if_false, after_trace] at h
      exact absurd (h _ _ (List.mem_append_left _ (List.mem_append_right _
        (List.mem_singleton.2 rfl)))) hres

/-- When a loop run returns and its last external call was a real wait, that wait
returned 0. -/
theorem loop_last_wait {W : Type} (rt : Runtime W) (o : Originals W) (T : Int) :
    ∀ (fuel : Nat) (rmtp : Option timespec) (w : W) (r : Int),
      (nanosleep_loop rt o T fuel rmtp w).1.ret = .ok r →
      ∀ rq res, (nanosleep_loop rt o T fuel rmtp w).1.trace.getLast?
          = some (Event.sys_nanosleep rq res) → res = 0 := by
  intro fuel
  induction fuel with
  | zero => intro rmtp w r h; simp [nanosleep_loop] at h
  | succ k ih =>
    intro rmtp w r h rq res hl
    simp only [nanosleep_loop] at h hl
    split at h
    · rename_i hc
      simp [hc] at hl
    · rename_i hc
      simp only [hc, if_false] at hl
      split at h
      · simp at h
      · rename_i f hf
        simp only [hf] at hl
        split at h
        · rename_i hres
          simp only [hres, if_true] at hl
          simp at hl
          omega
        · rename_i hres
          simp only [hres, if_false, after_trace] at hl
          rw [List.getLast?_append_of_ne_nil _ (loop_trace_ne_nil rt o T k _ _ r h)] at hl
          exact ih _ _ r h rq res hl

/-- With a clock that never runs backwards and real waits that last what they were asked
for: if the deadline `T` lies `dur` after the clock value `c0`, without wrapping, then a
loop run started at or after `c0` returns no earlier than `c0 + dur`. -/
theorem loop_not_early {W : Type} (rt : Runtime W) (o : Originals W) (T c0 dur : Int)
    (hmono : ClockMonotone rt o) (hwait : WaitHonoured rt o) (hdur : 0 ≤ dur)
    (hfit : c0 % 18446744073709551616 + dur < 18446744073709551616)
    (hT : T = c0 % 18446744073709551616 + dur) :
    ∀ (fuel : Nat) (rmtp : Option timespec) (w : W) (r : Int),
      c0 ≤ clock rt w → (nanosleep_loop rt o T fuel rmtp w).1.ret = .ok r →
      c0 + dur ≤ clock rt (nanosleep_loop rt o T fuel rmtp w).1.world := by
  intro fuel
  induction fuel with
  | zero => intro rmtp w r _ h; simp [nanosleep_loop] at h
  | succ k ih =>
    intro rmtp w r hc h
    have hs := hmono.2.1 T w
    have hg : clock rt (rt.try_timeout_schedule T w).2
        ≤ clock rt (ns_now rt (rt.try_timeout_schedule T w).2).2 :=
      hmono.1 (rt.try_timeout_schedule T w).2
    simp only [nanosleep_loop] at h ⊢
    split
    · rename_i hl
      simp only [ns_now_fst, UINT64_MOD] at hl ⊢
      omega
    · rename_i hl
      simp only [hl, if_false] at h
      split
      · rename_i hn
        simp [hn] at h
      · rename_i f hf
        simp only [hf] at h
        have hm := hmono.2.2 f hf
          { tv_sec := (T - (ns_now rt (rt.try_timeout_schedule T w).2).1) % UINT64_MOD
              / 1000000000,
            tv_nsec := (T - (ns_now rt (rt.try_timeout_schedule T w).2).1) % UINT64_MOD
              % 1000000000 }
          (ns_now rt (rt.try_timeout_schedule T w).2).2
        split
        · rename_i hres
          have hw := hwait f hf _ _ hres
          simp only [ns_now_fst, UINT64_MOD, timespec.ns] at hl hw ⊢
          omega
        · rename_i hres
          simp only [hres, if_false, after_ret] at h
          simp only [after_world]
          refine ih _ _ r ?_ h
          omega

/-- C8. Let the clock read `start` on entry, let the one scheduler call return with the
clock reading `now`, strictly before the deadline, and let the real wait for the
remaining `deadline - now` nanoseconds return 0. Then the intercepted `nanosleep`, given
room for at least one iteration, returns 0 after exactly these four external calls: the
clock, the scheduler once, the clock, the real `nanosleep` once. This holds for every
request, the one second of `main.cpp` included. -/
theorem nanosleep_idle_one_round {W : Type} (rt : Runtime W) (o : Originals W) (fuel : Nat)
    (rqtp : timespec) (rmtp : Option timespec) (w w0 w1 w2 w3 : W) (f : NanosleepFn W)
    (start st now : Int) (rem : Option timespec)
    (hf : o.sys_nanosleep = some f)
    (hstart : ns_now rt w = (start, w0))
    (hsched : rt.try_timeout_schedule (deadline start rqtp) w0 = (st, w1))
    (hnow : ns_now rt w1 = (now, w2))
    (hbefore : now < deadline start rqtp)
    (hwait : f { tv_sec := (deadline start rqtp - now) / 1000000000,
                 tv_nsec := (deadline start rqtp - now) % 1000000000 } w2
              = ((0, rem), w3)) :
    (nanosleep rt o (fuel + 1) rqtp rmtp w).1.ret = .ok 0 ∧
    (nanosleep rt o (fuel + 1) rqtp rmtp w).1.world = w3 ∧
    (nanosleep rt o (fuel + 1) rqtp rmtp w).1.trace
      = [Event.ns_now start,
         Event.try_timeout_schedule (deadline start rqtp) st,
         Event.ns_now now,
         Event.sys_nanosleep
           { tv_sec := (deadline start rqtp - now) / 1000000000,
             tv_nsec := (deadline start rqtp - now) % 1000000000 } 0] ∧
    ((nanosleep rt o (fuel + 1) rqtp rmtp w).1.trace.filter Event.isSched).length = 1 ∧
    ((nanosleep rt o (fuel + 1) rqtp rmtp w).1.trace.filter Event.isRealWait).length = 1 := by
  have hnow0 : 0 ≤ now := by
    have h := ns_now_fst rt w1
    rw [hnow] at h
    simp only [UINT64_MOD] at h
    omega
  have hT : deadline start rqtp < 18446744073709551616 := by
    simp only [deadline, UINT64_MOD]
    omega
  have hleft : (deadline start rqtp - now) % UINT64_MOD = deadline start rqtp - now := by
    simp only [UINT64_MOD]
    omega
  have hpos : ¬ (deadline start rqtp - now ≤ 0) := by omega
  simp [nanosleep, nanosleep_loop, hstart, hsched, hnow, hleft, hpos, hf, hwait, after_trace,
    Outcome.after, Event.isSched, Event.isRealWait]

/-- The run of `main.cpp`: one second requested in the small world with nothing to
schedule; the clock reads 5000 ns on entry and the wrapper returns 0 after one scheduler
call and one real wait of one second. -/
theorem nanosleep_idle_one_round_witness :
    (nanosleep demo_runtime (static_init demo_next) 1 { tv_sec := 1, tv_nsec := 0 } none
        demo_idle).1.ret = .ok 0 ∧
    (nanosleep demo_runtime (static_init demo_next) 1 { tv_sec := 1, tv_nsec := 0 } none
        demo_idle).1.trace
      = [Event.ns_now 5000, Event.try_timeout_schedule 1000005000 0, Event.ns_now 5000,
         Event.sys_nanosleep { tv_sec := 1, tv_nsec := 0 } 0] :=
  have h := nanosleep_idle_one_round demo_runtime (static_init demo_next) 0
    { tv_sec := 1, tv_nsec := 0 } none demo_idle demo_idle demo_idle demo_idle
    { usec := 1000005, busy := 0, interrupts := 0 } demo_nanosleep 5000 0 5000 none
    rfl rfl rfl rfl (by decide) rfl
  ⟨h.1, h.2.2.1⟩

/-! ## The intercepted `nanosleep`: what it returns -/

/-- C10. The intercepted `nanosleep` returns no value other than 0, in every run. With
the real `nanosleep` bound and storing a remainder only when it returns non-zero: a call
of `sleep` or `usleep` (any argument, room for at least one iteration) during which every
real wait returned 0, or none was made, returns 0. -/
theorem sleep_reports_nothing_unslept {W : Type} (rt : Runtime W) (o : Originals W)
    (fuel : Nat) (w : W) (secs microseconds : Int) :
    (∀ n rq rm v r, (nanosleep rt o n rq rm v).1.ret = .ok r → r = 0) ∧
    (∀ f, o.sys_nanosleep = some f → WritesOnlyOnFailure o →
      ((∀ rq res, Event.sys_nanosleep rq res ∈ (sleep rt o (fuel + 1) secs w).trace →
          res = 0) →
        (sleep rt o (fuel + 1) secs w).ret = .ok 0) ∧
      ((∀ rq res, Event.sys_nanosleep rq res
          ∈ (usleep rt o (fuel + 1) microseconds w).trace → res = 0) →
        (usleep rt o (fuel + 1) microseconds w).ret = .ok 0)) := by
  refine ⟨?_, fun f hf hw => ⟨?_, ?_⟩⟩
  · intro n rq rm v r h
    exact loop_ret_zero rt o _ n rm _ r h
  · intro h
    simp only [sleep, from_rmtp_trace, nanosleep, after_trace] at h
    have h2 := loop_undisturbed rt o (deadline (ns_now rt w).1 (sleep_rqtp secs)) f hf hw fuel
      (some { tv_sec := 0, tv_nsec := 0 }) (ns_now rt w).2
      (fun rq res hm => h rq res (List.mem_append_right _ hm))
    simp [sleep, from_rmtp, nanosleep, after_ret, h2.1, h2.2, sleep_result]
  · intro h
    simp only [usleep, from_rmtp_trace, nanosleep, after_trace] at h
    have h2 := loop_undisturbed rt o (deadline (ns_now rt w).1 (usleep_rqtp microseconds)) f hf
      hw fuel (some { tv_sec := 0, tv_nsec := 0 }) (ns_now rt w).2
      (fun rq res hm => h rq res (List.mem_append_right _ hm))
    simp [usleep, from_rmtp, nanosleep, after_ret, h2.1, h2.2, usleep_result, to_int, UINT_MOD]

theorem demo_writes_only_on_failure : WritesOnlyOnFailure (static_init demo_next) := by
  intro f hf rq w h
  simp only [static_init, demo_next, Option.some.injEq] at hf
  subst hf
  simp only [demo_nanosleep] at h ⊢
  split
  · rfl
  · split
    · rfl
    · rename_i h1 h2
      simp [h1, h2] at h

/-- In the small world with nothing to schedule and no signal, `sleep(1)` and
`usleep(1500000)` return 0. -/
theorem sleep_reports_nothing_unslept_witness :
    (sleep demo_runtime (static_init demo_next) 1 1 demo_idle).ret = .ok 0 ∧
    (usleep demo_runtime (static_init demo_next) 1 1500000 demo_idle).ret = .ok 0 :=
  have h := (sleep_reports_nothing_unslept demo_runtime (static_init demo_next) 0 demo_idle
    1 1500000).2 demo_nanosleep rfl demo_writes_only_on_failure
  ⟨h.1 (fun rq res hm => by
      have ht : (sleep demo_runtime (static_init demo_next) (0 + 1) 1 demo_idle).trace
          = [Event.ns_now 5000, Event.try_timeout_schedule 1000005000 0, Event.ns_now 5000,
             Event.sys_nanosleep { tv_sec := 1, tv_nsec := 0 } 0] := by decide
      rw [ht] at hm
      simp at hm
      exact hm.2),
   h.2 (fun rq res hm => by
      have ht : (usleep demo_runtime (static_init demo_next) (0 + 1) 1500000 demo_idle).trace
          = [Event.ns_now 5000, Event.try_timeout_schedule 1500005000 0, Event.ns_now 5000,
             Event.sys_nanosleep { tv_sec := 1, tv_nsec := 500000000 } 0] := by decide
      rw [ht] at hm
      simp at hm
      exact hm.2)⟩

/-! ## The intercepted `nanosleep`: a real wait that fails -/

/-- C5, as the code has it. Let the first real wait of a call return `res`, not 0. The
intercepted `nanosleep` does not return then: the call continues as the loop started
afresh, with the same deadline, in the world the failed wait left (so the scheduler runs
again, the clock is read again and, if the remaining time is not zero, the real
`nanosleep` is called again). If the call returns at all, it returns 0, not `res`. -/
theorem nanosleep_retries_after_failed_wait {W : Type} (rt : Runtime W) (o : Originals W)
    (fuel : Nat) (rqtp : timespec) (rmtp : Option timespec) (w w0 w1 w2 w3 : W)
    (f : NanosleepFn W) (start st now res : Int) (rem : Option timespec)
    (hf : o.sys_nanosleep = some f)
    (hstart : ns_now rt w = (start, w0))
    (hsched : rt.try_timeout_schedule (deadline start rqtp) w0 = (st, w1))
    (hnow : ns_now rt w1 = (now, w2))
    (hleft : (deadline start rqtp - now) % 18446744073709551616 ≠ 0)
    (hwait : f { tv_sec := (deadline start rqtp - now) % 18446744073709551616 / 1000000000,
                 tv_nsec := (deadline start rqtp - now) % 18446744073709551616 % 1000000000 }
               w2 = ((res, rem), w3))
    (hres : res ≠ 0) :
    nanosleep rt o (fuel + 1) rqtp rmtp w
      = ((nanosleep_loop rt o (deadline start rqtp) fuel (store_rmtp rmtp rem) w3).1.after
          [Event.ns_now start,
           Event.try_timeout_schedule (deadline start rqtp) st,
           Event.ns_now now,
           Event.sys_nanosleep
             { tv_sec := (deadline start rqtp - now) % 18446744073709551616 / 1000000000,
               tv_nsec := (deadline start rqtp - now) % 18446744073709551616 % 1000000000 }
             res],
         (nanosleep_loop rt o (deadline start rqtp) fuel (store_rmtp rmtp rem) w3).2) ∧
    (∀ r, (nanosleep rt o (fuel + 1) rqtp rmtp w).1.ret = .ok r → r = 0 ∧ r ≠ res) := by
  have hpos : ¬ ((deadline start rqtp - now) % 18446744073709551616 ≤ 0) := by omega
  refine ⟨?_, ?_⟩
  · simp [nanosleep, nanosleep_loop, hstart, hsched, hnow, UINT64_MOD, hpos, hf, hwait, hres,
      Outcome.after]
  · intro r h
    have h0 : r = 0 := loop_ret_zero rt o _ (fuel + 1) rmtp _ r h
    exact ⟨h0, by omega⟩

/-- In the small world a signal interrupts the first real wait of a one-second sleep
(result -1, no time has passed); the wrapper goes round again and returns 0 after a second
real wait. -/
theorem nanosleep_retries_after_failed_wait_witness :
    nanosleep demo_runtime (static_init demo_next) 2 { tv_sec := 1, tv_nsec := 0 } none
        { usec := 0, busy := 0, interrupts := 1 }
      = ((nanosleep_loop demo_runtime (static_init demo_next) 1000000000 1 none
            { usec := 0, busy := 0, interrupts := 0 }).1.after
          [Event.ns_now 0, Event.try_timeout_schedule 1000000000 0, Event.ns_now 0,
           Event.sys_nanosleep { tv_sec := 1, tv_nsec := 0 } (-1)],
         (nanosleep_loop demo_runtime (static_init demo_next) 1000000000 1 none
            { usec := 0, busy := 0, interrupts := 0 }).2) :=
  (nanosleep_retries_after_failed_wait demo_runtime (static_init demo_next) 1
    { tv_sec := 1, tv_nsec := 0 } none { usec := 0, busy := 0, interrupts := 1 }
    { usec := 0, busy := 0, interrupts := 1 } { usec := 0, busy := 0, interrupts := 1 }
    { usec := 0, busy := 0, interrupts := 1 } { usec := 0, busy := 0, interrupts := 0 }
    demo_nanosleep 0 0 0 (-1) (some { tv_sec := 1, tv_nsec := 0 })
    rfl rfl rfl rfl (by decide) rfl (by decide)).1

/-- C5 fails as stated: in the small world the real `nanosleep` returns -1 on its first
call, yet the intercepted `nanosleep` returns 0 and not -1, and it has called the real
`nanosleep` a second time. -/
theorem nanosleep_swallows_failed_wait :
    (nanosleep demo_runtime (static_init demo_next) 2 { tv_sec := 1, tv_nsec := 0 } none
        { usec := 0, busy := 0, interrupts := 1 }).1.trace
      = [Event.ns_now 0, Event.try_timeout_schedule 1000000000 0, Event.ns_now 0,
         Event.sys_nanosleep { tv_sec := 1, tv_nsec := 0 } (-1),
         Event.try_timeout_schedule 1000000000 0, Event.ns_now 0,
         Event.sys_nanosleep { tv_sec := 1, tv_nsec := 0 } 0] ∧
    (nanosleep demo_runtime (static_init demo_next) 2 { tv_sec := 1, tv_nsec := 0 } none
        { usec := 0, busy := 0, interrupts := 1 }).1.ret = .ok 0 ∧
    (nanosleep demo_runtime (static_init demo_next) 2 { tv_sec := 1, tv_nsec := 0 } none
        { usec := 0, busy := 0, interrupts := 1 }).1.ret ≠ .ok (-1) ∧
    ((nanosleep demo_runtime (static_init demo_next) 2 { tv_sec := 1, tv_nsec := 0 } none
        { usec := 0, busy := 0, interrupts := 1 }).1.trace.filter Event.isRealWait).length
      = 2 := by
  refine ⟨by decide, rfl, ?_, by decide⟩
  intro h
  have h2 : (Except.ok 0 : Except Fault Int) = .ok (-1) := h
  cases h2

/-! ## The intercepted `nanosleep`: a scheduler that overruns the deadline -/

/-- C3 at a failing input. One second is requested in the small world at clock
1700000000 s, where 1000001 microseconds of ready coroutine work run in the scheduler
call, so that the clock reads 1000 ns past the deadline afterwards. The remaining time is
computed as `2^64 - 1000`, it is not "at most zero", and the real `nanosleep` is asked to
wait 18446744073 seconds and 709550616 nanoseconds, far more than the second requested. -/
theorem nanosleep_overrun_real_wait :
    (nanosleep demo_runtime (static_init demo_next) 1 { tv_sec := 1, tv_nsec := 0 } none
        { usec := 1700000000000000, busy := 1000001, interrupts := 0 }).1.trace
      = [Event.ns_now 1700000000000000000,
         Event.try_timeout_schedule 1700000001000000000 0,
         Event.ns_now 1700000001000001000,
         Event.sys_nanosleep { tv_sec := 18446744073, tv_nsec := 709550616 } 0] ∧
    (1700000001000000000 - 1700000001000001000) % UINT64_MOD = 18446744073709550616 ∧
    ¬ ((1700000001000000000 - 1700000001000001000) % UINT64_MOD ≤ 0) ∧
    timespec.ns { tv_sec := 1, tv_nsec := 0 }
      < timespec.ns { tv_sec := 18446744073, tv_nsec := 709550616 } := by
  refine ⟨by decide, by decide, by decide, by decide⟩

/-! ## The intercepted `nanosleep`: never early -/

/-- C2. For a request with `tv_sec ≥ 0` and `0 ≤ tv_nsec < 10^9`, made when the clock
reads `start` with `start + tv_sec * 10^9 + tv_nsec < 2^64`, against a clock that never
runs backwards and a real `nanosleep` that, when it returns 0, has let the time it was
asked for pass: whenever the intercepted `nanosleep` returns, the clock has advanced by at
least the requested duration, so (for a clock that is not negative on entry) it stands at
`start + tv_sec * 10^9 + tv_nsec` or later. The external call after which it returns is
never a real wait with a non-zero result. -/
theorem nanosleep_never_returns_early {W : Type} (rt : Runtime W) (o : Originals W)
    (fuel : Nat) (rqtp : timespec) (rmtp : Option timespec) (w : W) (r : Int)
    (hsec : 0 ≤ rqtp.tv_sec) (hns0 : 0 ≤ rqtp.tv_nsec) (hns1 : rqtp.tv_nsec < 1000000000)
    (hfit : (ns_now rt w).1 + rqtp.tv_sec * 1000000000 + rqtp.tv_nsec < 18446744073709551616)
    (hmono : ClockMonotone rt o) (hwait : WaitHonoured rt o)
    (hret : (nanosleep rt o fuel rqtp rmtp w).1.ret = .ok r) :
    clock rt w + rqtp.tv_sec * 1000000000 + rqtp.tv_nsec
        ≤ clock rt (nanosleep rt o fuel rqtp rmtp w).1.world ∧
    (0 ≤ clock rt w →
      (ns_now rt w).1 + rqtp.tv_sec * 1000000000 + rqtp.tv_nsec
        ≤ clock rt (nanosleep rt o fuel rqtp rmtp w).1.world) ∧
    (∀ rq res, (nanosleep rt o fuel rqtp rmtp w).1.trace.getLast?
        = some (Event.sys_nanosleep rq res) → res = 0) := by
  have hfit2 : clock rt w % 18446744073709551616
      + (rqtp.tv_sec * 1000000000 + rqtp.tv_nsec) < 18446744073709551616 := by
    simp only [ns_now_fst, UINT64_MOD] at hfit
    omega
  have hT : deadline (ns_now rt w).1 rqtp
      = clock rt w % 18446744073709551616 + (rqtp.tv_sec * 1000000000 + rqtp.tv_nsec) := by
    simp only [deadline, ns_now_fst, UINT64_MOD]
    omega
  have hloop : (nanosleep_loop rt o (deadline (ns_now rt w).1 rqtp) fuel rmtp
      (ns_now rt w).2).1.ret = .ok r := hret
  have hentry : clock rt w ≤ clock rt (ns_now rt w).2 := hmono.1 w
  have hA := loop_not_early rt o _ (clock rt w) (rqtp.tv_sec * 1000000000 + rqtp.tv_nsec)
    hmono hwait (by omega) hfit2 hT fuel rmtp (ns_now rt w).2 r hentry hloop
  have hA2 : clock rt w + rqtp.tv_sec * 1000000000 + rqtp.tv_nsec
      ≤ clock rt (nanosleep rt o fuel rqtp rmtp w).1.world := by
    simp only [nanosleep, after_world]
    omega
  refine ⟨hA2, ?_, ?_⟩
  · intro h0
    have hle : (ns_now rt w).1 ≤ clock rt w := by
      simp only [ns_now_fst, UINT64_MOD]
      omega
    omega
  · intro rq res hl
    simp only [nanosleep, after_trace] at hl
    rw [List.getLast?_append_of_ne_nil _ (loop_trace_ne_nil rt o _ fuel _ _ r hloop)] at hl
    exact loop_last_wait rt o _ fuel rmtp _ r hloop rq res hl

theorem demo_clock (w : DemoWorld) : clock demo_runtime w = 1000 * (w.usec : Int) := by
  simp only [clock, demo_runtime, Option.getD_some]
  omega

theorem demo_clock_monotone : ClockMonotone demo_runtime (static_init demo_next) := by
  refine ⟨?_, ?_, ?_⟩
  · intro w
    exact le_refl _
  · intro t w
    show clock demo_runtime w ≤ clock demo_runtime (demo_schedule t w).2
    simp only [demo_clock, demo_schedule, Nat.cast_add]
    omega
  · intro f hf rq w
    simp only [static_init, demo_next, Option.some.injEq] at hf
    subst hf
    simp only [demo_clock, demo_nanosleep]
    split
    · exact le_refl _
    · split
      · simp only [Nat.cast_add]
        omega
      · exact le_refl _

theorem demo_wait_honoured : WaitHonoured demo_runtime (static_init demo_next) := by
  intro f hf rq w h
  simp only [static_init, demo_next, Option.some.injEq] at hf
  subst hf
  simp only [demo_clock, demo_nanosleep, timespec.ns] at h ⊢
  split
  · rename_i h1
    simp [h1] at h
  · rename_i h1
    split
    · simp only [Nat.cast_add]
      omega
    · rename_i h2
      simp [h1, h2] at h

/-- In the small world, two milliseconds are requested at clock 5000 ns while three
microseconds of coroutine work are ready and a signal interrupts the first real wait; the
wrapper returns with the clock at 2005000 ns, the deadline. -/
theorem nanosleep_never_returns_early_witness :
    clock demo_runtime { usec := 5, busy := 3, interrupts := 1 } + 0 * 1000000000 + 2000000
      ≤ clock demo_runtime
          (nanosleep demo_runtime (static_init demo_next) 3 { tv_sec := 0, tv_nsec := 2000000 }
            none { usec := 5, busy := 3, interrupts := 1 }).1.world ∧
    (nanosleep demo_runtime (static_init demo_next) 3 { tv_sec := 0, tv_nsec := 2000000 }
            none { usec := 5, busy := 3, interrupts := 1 }).1.world
      = { usec := 2005, busy := 0, interrupts := 0 } :=
  ⟨(nanosleep_never_returns_early demo_runtime (static_init demo_next) 3
      { tv_sec := 0, tv_nsec := 2000000 } none { usec := 5, busy := 3, interrupts := 1 } 0
      (by decide) (by decide) (by decide) (by decide) demo_clock_monotone demo_wait_honoured
      rfl).1,
   by decide⟩

/-! ## Missing originals -/

/-- C4, as the code has it. The static initialisers keep whatever the lookup yields, a
null pointer included, each of the six on its own; nothing fails. A socket wrapper whose
original is null still calls the scheduler and then reaches its delegation step, where
the call goes through the null pointer: no original is called and the wrapper does not
return. The intercepted `nanosleep` with a null original returns 0 when it computes a
remaining time of zero and otherwise reaches the call through the null pointer. -/
theorem missing_original_stays_null {W : Type} (rt : Runtime W) (next : NextSymbols W)
    (w : W) :
    ((static_init next).sys_nanosleep = next.nanosleep ∧
     (static_init next).sys_connect = next.connect ∧
     (static_init next).sys_listen = next.listen ∧
     (static_init next).sys_accept = next.accept ∧
     (static_init next).sys_send = next.send ∧
     (static_init next).sys_recv = next.recv) ∧
    (next.connect = none → ∀ socket address address_len,
      (connect rt (static_init next) socket address address_len w).ret = .error .null_call ∧
      (connect rt (static_init next) socket address address_len w).trace
        = [Event.try_timed_schedule UINT64_MAX (rt.try_timed_schedule UINT64_MAX w).1]) ∧
    (next.listen = none → ∀ socket backlog,
      (listen rt (static_init next) socket backlog w).ret = .error .null_call ∧
      (listen rt (static_init next) socket backlog w).trace
        = [Event.try_timed_schedule UINT64_MAX (rt.try_timed_schedule UINT64_MAX w).1]) ∧
    (next.accept = none → ∀ socket address address_len,
      (accept rt (static_init next) socket address address_len w).ret = .error .null_call ∧
      (accept rt (static_init next) socket address address_len w).trace
        = [Event.try_timed_schedule UINT64_MAX (rt.try_timed_schedule UINT64_MAX w).1]) ∧
    (next.send = none → ∀ socket buffer length flags,
      (send rt (static_init next) socket buffer length flags w).ret = .error .null_call ∧
      (send rt (static_init next) socket buffer length flags w).trace
        = [Event.try_timed_schedule UINT64_MAX (rt.try_timed_schedule UINT64_MAX w).1]) ∧
    (next.recv = none → ∀ socket buffer length flags,
      (recv rt (static_init next) socket buffer length flags w).ret = .error .null_call ∧
      (recv rt (static_init next) socket buffer length flags w).trace
        = [Event.try_timed_schedule UINT64_MAX (rt.try_timed_schedule UINT64_MAX w).1]) ∧
    (next.nanosleep = none → ∀ fuel rqtp rmtp,
      (nanosleep rt (static_init next) (fuel + 1) rqtp rmtp w).1.ret
        = (if (deadline (ns_now rt w).1 rqtp
                - (ns_now rt (rt.try_timeout_schedule (deadline (ns_now rt w).1 rqtp)
                    (ns_now rt w).2).2).1) % UINT64_MOD ≤ 0
           then .ok 0 else .error .null_call) ∧
      (nanosleep rt (static_init next) (fuel + 1) rqtp rmtp w).1.trace.filter Event.isReal
        = []) := by
  refine ⟨⟨rfl, rfl, rfl, rfl, rfl, rfl⟩, ?_, ?_, ?_, ?_, ?_, ?_⟩
  · intro h socket address address_len
    simp [connect, static_init, h]
  · intro h socket backlog
    simp [listen, static_init, h]
  · intro h socket address address_len
    simp [accept, static_init, h]
  · intro h socket buffer length flags
    simp [send, static_init, h]
  · intro h socket buffer length flags
    simp [recv, static_init, h]
  · intro h fuel rqtp rmtp
    simp only [nanosleep, nanosleep_loop, static_init, h, after_ret, after_trace]
    split <;> simp [Event.isReal]

/-- In the small world without a further `connect`: the intercepted `connect` ends in the
call through the null pointer after its scheduler call. -/
theorem missing_original_stays_null_witness :
    (connect demo_runtime (static_init demo_next_without_connect) 3 4 16
        { usec := 0, busy := 7, interrupts := 0 }).ret = .error .null_call :=
  ((missing_original_stays_null demo_runtime demo_next_without_connect
      { usec := 0, busy := 7, interrupts := 0 }).2.1 rfl 3 4 16).1

/-- C4 fails as stated: with no further `connect` to be found, static initialisation
completes all the same, leaving `sys_connect` null beside five bound originals; the
intercepted `connect` then runs the scheduler and arrives at its delegation step with the
null binding, while the intercepted `listen` of the same process works. -/
theorem missing_connect_is_not_fatal :
    (static_init demo_next_without_connect).sys_connect.isNone = true ∧
    (static_init demo_next_without_connect).sys_listen.isSome = true ∧
    (connect demo_runtime (static_init demo_next_without_connect) 3 4 16
        { usec := 0, busy := 7, interrupts := 0 }).ret = .error .null_call ∧
    (connect demo_runtime (static_init demo_next_without_connect) 3 4 16
        { usec := 0, busy := 7, interrupts := 0 }).trace
      = [Event.try_timed_schedule 18446744073709551615 0] ∧
    (listen demo_runtime (static_init demo_next_without_connect) 3 128
        { usec := 0, busy := 7, interrupts := 0 }).ret = .ok 0 :=
  ⟨rfl, rfl, rfl, rfl, rfl⟩

end LibHook
